import Mathlib

/-!
Shallow embedding of the radar-timeline / wind-field engine of the
rain-today-web client (two near-duplicate script variants; the variant
of `part_001` is embedded under the source names, the diverging
functions of the `part_000` variant carry a `000` suffix).
JavaScript numbers are modelled as exact rationals (`ℚ`) except where
the source computes with `Math.sin`/`Math.cos`/`Math.PI`, which forces
real numbers (`ℝ`).
-/

namespace RainToday

/-- Source helper `clamp(v,a,b) = Math.max(a, Math.min(b, v))`. -/
def clamp (x a b : ℚ) : ℚ := max a (min b x)

/-- Result record of `computeRainEvent15`: `{ startMin, durationMin, totalMm }`;
JavaScript `null` for `startMin` is modelled as `none`. -/
structure RainEvent where
  startMin : Option ℤ
  durationMin : ℤ
  totalMm : ℚ
deriving DecidableEq, Repr

/-- Threshold constant `TH = 0.1` of `computeRainEvent15`. -/
def TH : ℚ := 1/10

/-- The second loop of `computeRainEvent15`: starting at the first
qualifying sample, it accumulates `total` and advances `end` while
samples stay above `TH`, stopping at the first sample `≤ TH`.
Returns the run length (`end - start + 1`) and the accumulated total. -/
def rainRun : List ℚ → ℕ × ℚ
  | [] => (0, 0)
  | a :: rest =>
    if TH < a then
      let r := rainRun rest
      (r.1 + 1, a + r.2)
    else (0, 0)

/-- The first loop of `computeRainEvent15`: the index of the first sample
strictly above `TH` (`start`), or `null` (`none`) when no sample qualifies. -/
def firstAboveIdx : List ℚ → Option ℕ
  | [] => none
  | a :: rest => if TH < a then some 0 else (firstAboveIdx rest).map (· + 1)

/-- `computeRainEvent15(arr)` (identical in both script variants): finds the
first index with `arr[i] > 0.1`, then sums the maximal consecutive run of
qualifying samples; `startMin = start*15`, `durationMin = (end-start+1)*15`. -/
def computeRainEvent15 (arr : List ℚ) : RainEvent :=
  if arr.isEmpty then ⟨none, 0, 0⟩
  else
    match firstAboveIdx arr with
    | none => ⟨none, 0, 0⟩
    | some start =>
      let r := rainRun (arr.drop start)
      ⟨some ((start : ℤ) * 15), (r.1 : ℤ) * 15, r.2⟩

/-! ### escapeHtml (identical in both variants)

Strings are modelled as `List Char`.  The double-quote and single-quote
characters are written `Char.ofNat 34` / `Char.ofNat 39`. -/

/-- The double-quote character `"`. -/
def quoteChar : Char := Char.ofNat 34

/-- The single-quote character. -/
def aposChar : Char := Char.ofNat 39

/-- The replacement text `"&amp;"`. -/
def ampEnt : List Char := ['&', 'a', 'm', 'p', ';']

/-- The replacement text `"&lt;"`. -/
def ltEnt : List Char := ['&', 'l', 't', ';']

/-- The replacement text `"&gt;"`. -/
def gtEnt : List Char := ['&', 'g', 't', ';']

/-- The replacement text `"&quot;"`. -/
def quotEnt : List Char := ['&', 'q', 'u', 'o', 't', ';']

/-- The replacement text `"&#039;"`. -/
def aposEnt : List Char := ['&', '#', '0', '3', '9', ';']

/-- `String.prototype.replaceAll` specialised to a single-character search
string: every occurrence of `c` is replaced by `rep`. -/
def replaceAllChar (c : Char) (rep : List Char) : List Char → List Char
  | [] => []
  | a :: rest => (if a = c then rep else [a]) ++ replaceAllChar c rep rest

/-- The last four `replaceAll` stages of `escapeHtml` (everything after the
`&` stage). -/
def escapeRest (l : List Char) : List Char :=
  replaceAllChar aposChar aposEnt
    (replaceAllChar quoteChar quotEnt
      (replaceAllChar '>' gtEnt
        (replaceAllChar '<' ltEnt l)))

/-- `escapeHtml(str)`: the five sequential `replaceAll` calls of the source,
`&` first, then `<`, `>`, `"`, and the single quote. -/
def escapeHtml (s : List Char) : List Char :=
  escapeRest (replaceAllChar '&' ampEnt s)

/-- Per-character view of the same pipeline, used to reason by induction. -/
def escChar (a : Char) : List Char :=
  if a = '&' then ampEnt
  else if a = '<' then ltEnt
  else if a = '>' then gtEnt
  else if a = quoteChar then quotEnt
  else if a = aposChar then aposEnt
  else [a]

/-- The five entity texts that an output `&` may begin. -/
def entities : List (List Char) := [ampEnt, ltEnt, gtEnt, quotEnt, aposEnt]

/-- `true` iff the list holds none of the four HTML metacharacters. -/
def noMetaB (l : List Char) : Bool :=
  l.all fun a => decide (a ≠ '<' ∧ a ≠ '>' ∧ a ≠ quoteChar ∧ a ≠ aposChar)

/-- `true` iff every `&` in the list starts one of the five entity texts. -/
def ampOkB : List Char → Bool
  | [] => true
  | a :: rest =>
    (if a = '&' then entities.any fun e => e.isPrefixOf (a :: rest) else true)
      && ampOkB rest

theorem replaceAllChar_append (c : Char) (rep x y : List Char) :
    replaceAllChar c rep (x ++ y)
      = replaceAllChar c rep x ++ replaceAllChar c rep y := by
  induction x with
  | nil => rfl
  | cons a rest ih => simp [replaceAllChar, ih]

theorem escapeRest_append (x y : List Char) :
    escapeRest (x ++ y) = escapeRest x ++ escapeRest y := by
  simp [escapeRest, replaceAllChar_append]

theorem escapeHtml_cons (a : Char) (s : List Char) :
    escapeHtml (a :: s) = escChar a ++ escapeHtml s := by
  show escapeRest ((if a = '&' then ampEnt else [a]) ++ replaceAllChar '&' ampEnt s)
      = escChar a ++ escapeHtml s
  rw [escapeRest_append]
  unfold escChar
  by_cases h1 : a = '&'
  · subst h1; simp [escapeHtml]
    decide
  rw [if_neg h1, if_neg h1]
  by_cases h2 : a = '<'
  · subst h2; simp [escapeHtml]
    decide
  rw [if_neg h2]
  by_cases h3 : a = '>'
  · subst h3; simp [escapeHtml]
    decide
  rw [if_neg h3]
  by_cases h4 : a = quoteChar
  · subst h4; simp [escapeHtml]
    decide
  rw [if_neg h4]
  by_cases h5 : a = aposChar
  · subst h5; simp [escapeHtml]
    decide
  rw [if_neg h5]
  simp [escapeHtml, escapeRest, replaceAllChar, h1, h2, h3, h4, h5]

theorem noMetaB_append (x y : List Char) :
    noMetaB (x ++ y) = (noMetaB x && noMetaB y) := by
  simp [noMetaB, List.all_append]

theorem noMetaB_escChar (a : Char) : noMetaB (escChar a) = true := by
  unfold escChar
  split_ifs with h1 h2 h3 h4 h5
  · decide
  · decide
  · decide
  · decide
  · decide
  · simp [noMetaB, h2, h3, h4, h5]

theorem ampOkB_cons_safe (a : Char) (l : List Char) (h : a ≠ '&') :
    ampOkB (a :: l) = ampOkB l := by
  simp [ampOkB, h]

theorem ampOkB_escChar_append (a : Char) (l : List Char) :
    ampOkB (escChar a ++ l) = ampOkB l := by
  unfold escChar
  split_ifs with h1 h2 h3 h4 h5
  · simp [ampEnt, ampOkB, entities, List.isPrefixOf, ltEnt, gtEnt, quotEnt, aposEnt]
  · simp [ampEnt, ampOkB, entities, List.isPrefixOf, ltEnt, gtEnt, quotEnt, aposEnt]
  · simp [ampEnt, ampOkB, entities, List.isPrefixOf, ltEnt, gtEnt, quotEnt, aposEnt]
  · simp [ampEnt, ampOkB, entities, List.isPrefixOf, ltEnt, gtEnt, quotEnt, aposEnt]
  · simp [ampEnt, ampOkB, entities, List.isPrefixOf, ltEnt, gtEnt, quotEnt, aposEnt]
  · exact ampOkB_cons_safe a l h1

theorem escapeHtml_bool (s : List Char) :
    noMetaB (escapeHtml s) = true ∧ ampOkB (escapeHtml s) = true := by
  induction s with
  | nil => exact ⟨rfl, rfl⟩
  | cons a rest ih =>
    rw [escapeHtml_cons]
    refine ⟨?_, ?_⟩
    · rw [noMetaB_append, noMetaB_escChar, ih.1]; rfl
    · rw [ampOkB_escChar_append]; exact ih.2

theorem ampOkB_cons (a : Char) (rest : List Char) :
    ampOkB (a :: rest)
      = ((if a = '&' then entities.any fun e => e.isPrefixOf (a :: rest) else true)
          && ampOkB rest) := rfl

theorem ampOkB_position (l : List Char) (h : ampOkB l = true) :
    ∀ pre suf, l = pre ++ '&' :: suf →
      ∃ e ∈ entities, e.isPrefixOf ('&' :: suf) = true := by
  intro pre
  induction pre generalizing l with
  | nil =>
    intro suf hl
    subst hl
    rw [List.nil_append, ampOkB_cons, if_pos rfl, Bool.and_eq_true] at h
    exact List.any_eq_true.mp h.1
  | cons p pre ih =>
    intro suf hl
    subst hl
    rw [List.cons_append, ampOkB_cons, Bool.and_eq_true] at h
    exact ih _ h.2 suf rfl

/-! ### Vector field sampler: fetchPointWind (identical in both variants)

`Math.sin`, `Math.cos` and `Math.PI` force real numbers here. -/

/-- Truncation toward zero, the quotient used by the JavaScript `%` operator. -/
noncomputable def realTrunc (t : ℝ) : ℤ := if 0 ≤ t then ⌊t⌋ else ⌈t⌉

/-- JavaScript remainder `x % y` on numbers (sign follows the dividend). -/
noncomputable def jsRem (x y : ℝ) : ℝ := x - y * (realTrunc (x / y) : ℝ)

/-- `{ spd, deg, u, v }` returned by `fetchPointWind`. -/
structure WindSample where
  spd : ℝ
  deg : ℝ
  u : ℝ
  v : ℝ

/-- `fetchPointWind(lat, lon)`: the payload argument models the first hourly
entry `(windspeed_10m[0], winddirection_10m[0])` of a successful response;
`none` models a network or parse failure, which the `catch` turns into `null`.
On success: `toDeg = (deg + 180) % 360`, `toRad = toDeg*π/180`,
`u = sin(toRad)*spd`, `v = cos(toRad)*spd`. -/
noncomputable def fetchPointWind (payload : Option (ℝ × ℝ)) : Option WindSample :=
  match payload with
  | none => none
  | some (spd, deg) =>
    let toDeg := jsRem (deg + 180) 360
    let toRad := toDeg * Real.pi / 180
    some ⟨spd, deg, Real.sin toRad * spd, Real.cos toRad * spd⟩

/-! ### Particle field (identical tick logic in both variants)

JavaScript numbers of the canvas subsystem are modelled as exact rationals;
the shared `windCenter` components consumed here are taken as rational
parameters of the ambient environment. -/

/-- `{ x, y, age }` in canvas pixel space. -/
structure Particle where
  x : ℚ
  y : ℚ
  age : ℚ
deriving DecidableEq, Repr

/-- Ambient browser values read by the particle code: `window.innerWidth`,
`window.innerHeight`, `window.devicePixelRatio`, and the current
`windCenter` fields `u`, `v`, `spd`. -/
structure WindEnv where
  innerWidth : ℚ
  innerHeight : ℚ
  dpr : ℚ
  u : ℚ
  v : ℚ
  spd : ℚ
deriving DecidableEq, Repr

/-- Mutable module state of the particle field: the `windRunning` flag, the
`windParticles` pool, and the canvas backing-store size. -/
structure WindState where
  windRunning : Bool
  windParticles : List Particle
  canvasW : ℚ
  canvasH : ℚ
deriving DecidableEq, Repr

/-- `newParticle()`; `r` carries the three `Math.random()` draws. -/
def newParticle (env : WindEnv) (r : ℚ × ℚ × ℚ) : Particle :=
  ⟨r.1 * env.innerWidth, r.2.1 * env.innerHeight, r.2.2 * 120⟩

/-- `initParticles()`: the pool is replaced by 650 fresh particles. -/
def initParticles (env : WindEnv) (rnd : ℕ → ℚ × ℚ × ℚ) : List Particle :=
  (List.range 650).map fun i => newParticle env (rnd i)

/-- The per-particle body of the `loopParticles` loop: advect by the center
wind scaled by `0.07` and by `clamp(spd/25, 0.2, 2.6)`, increment `age`, and
respawn (`Object.assign(p, newParticle())`, same slot reused) when the moved
particle left `[0, innerWidth] × [0, innerHeight]` or its age exceeds 150.
`fresh` is the particle `newParticle()` would produce from the random
draws of this tick.  (`windCenter.spd || 0` equals `spd` on rationals.) -/
def stepParticle (env : WindEnv) (fresh : Particle) (p : Particle) : Particle :=
  let speedFactor := clamp (env.spd / 25) (2/10) (26/10)
  let x := p.x + env.u * (7/100) * speedFactor
  let y := p.y + env.v * (-(7/100)) * speedFactor
  let age := p.age + 1
  if x < 0 ∨ env.innerWidth < x ∨ y < 0 ∨ env.innerHeight < y ∨ (150:ℚ) < age
  then fresh else ⟨x, y, age⟩

/-- One `loopParticles` iteration: nothing happens when `windRunning` is
false (the flag is consulted at the top of every iteration); otherwise every
particle of the pool is advected/respawned in place.  Canvas painting (the
trail overlay and strokes) touches no modelled state. -/
def loopParticlesStep (env : WindEnv) (rnd : ℕ → ℚ × ℚ × ℚ) (s : WindState) :
    WindState :=
  if s.windRunning then
    { s with windParticles :=
        s.windParticles.mapIdx fun i p => stepParticle env (newParticle env (rnd i)) p }
  else s

/-- `startWindParticles()`: set the running flag, reinitialize the pool, and
enter the redraw loop (whose iterations are `loopParticlesStep`). -/
def startWindParticles (env : WindEnv) (rnd : ℕ → ℚ × ℚ × ℚ) (s : WindState) :
    WindState :=
  { s with windRunning := true, windParticles := initParticles env rnd }

/-- `stopWindParticles()`: drop the flag and empty the pool. -/
def stopWindParticles (s : WindState) : WindState :=
  { s with windRunning := false, windParticles := [] }

/-- `n` redraw ticks; each tick `k` may see different ambient values
`envs k` and random draws `rnds k`. -/
def runTicks (envs : ℕ → WindEnv) (rnds : ℕ → ℕ → ℚ × ℚ × ℚ) :
    ℕ → WindState → WindState
  | 0, s => s
  | n + 1, s => runTicks envs rnds n (loopParticlesStep (envs n) (rnds n) s)

/-- The `part_001` resize listener is `resizeWindCanvas` alone: recompute the
canvas backing store from the window size and device pixel ratio
(`Math.floor(innerWidth * dpr)` etc.); the particle pool is not touched. -/
def resizeHandler001 (env : WindEnv) (s : WindState) : WindState :=
  { s with canvasW := ((⌊env.innerWidth * env.dpr⌋ : ℤ) : ℚ),
           canvasH := ((⌊env.innerHeight * env.dpr⌋ : ℤ) : ℚ) }

/-- The `part_000` resize listener:
`resizeCanvas(); if (windRunning) initParticles();` — the canvas is resized
to the window size first, then the pool is reinitialized when running. -/
def resizeHandler000 (env : WindEnv) (rnd : ℕ → ℚ × ℚ × ℚ) (s : WindState) :
    WindState :=
  let s1 : WindState := { s with canvasW := env.innerWidth, canvasH := env.innerHeight }
  if s1.windRunning then { s1 with windParticles := initParticles env rnd } else s1

/-- "Fully reinitializes the particle pool": the post-state pool is
`initParticles` for some sequence of random draws. -/
def fullyReinitialized (env : WindEnv) (s : WindState) : Prop :=
  ∃ rnd : ℕ → ℚ × ℚ × ℚ, s.windParticles = initParticles env rnd

/-- A concrete ambient environment for counterexamples and witnesses. -/
def cexWindEnv : WindEnv := ⟨800, 600, 1, 0, 0, 0⟩

/-- A concrete state with the running flag set. -/
def cexRunningState : WindState := ⟨true, [], 800, 600⟩

/-! ### Radar timeline -/

/-- One catalog entry `{ time, path }`: unix seconds and an opaque tile-path
fragment. -/
structure RadarFrame where
  time : ℤ
  path : String
deriving DecidableEq, Repr

/-- The decoded catalog body `data.radar`; a missing `past`/`nowcast` array
(`data && data.radar && data.radar.past ? … : []`) is `none`. -/
structure RadarCatalog where
  past : Option (List RadarFrame)
  nowcast : Option (List RadarFrame)
deriving DecidableEq, Repr

/-- The radar-timeline module state: the globals `frames`, `frameIndex`,
`anim`, the bounds and value of the slider element, the status and
time-label texts, the play-button glyph, the toggle checkboxes, the current
URL template of the tile layer (`none` before the layer exists), and bookkeeping for the live
interval timers (`timers` lists the handles of installed-but-uncleared
intervals; `nextTimer` is the fresh-handle supply of `setInterval`). -/
structure RadarState where
  hasMap : Bool
  frames : List RadarFrame
  frameIndex : ℤ
  anim : Option ℕ
  timers : List ℕ
  nextTimer : ℕ
  sliderMin : ℤ
  sliderMax : ℤ
  sliderValue : ℤ
  statusText : String
  radarUrl : Option String
  timeLabel : String
  playBtnText : String
  rainAutoChecked : Bool
  radarToggleChecked : Bool
deriving DecidableEq, Repr

/-- JavaScript `frames[i]`: `undefined` (`none`) outside `0 ≤ i < length`. -/
def jsIndex (l : List RadarFrame) (i : ℤ) : Option RadarFrame :=
  if 0 ≤ i then l[i.toNat]? else none

/-- Derived tile URL of a frame (part_001): the path fragment substituted
into the fixed 256-px template. -/
def frameUrl (f : RadarFrame) : String :=
  "https://tilecache.rainviewer.com" ++ f.path ++ "/256/{z}/{x}/{y}/2/1_1.png"

/-- Two-digit zero padding. -/
def pad2 (n : ℕ) : String := if n < 10 then "0" ++ toString n else toString n

/-- The time label text
`new Date(time*1000).toLocaleTimeString("fr-FR", { hour: "2-digit", minute: "2-digit" })`,
modelled at UTC (the timezone offset of the locale is environmental, the
choice of which timestamp is displayed is not). -/
def fmtTimeHM (t : ℤ) : String :=
  pad2 ((t.emod 86400) / 3600).toNat ++ ":" ++ pad2 ((t.emod 3600) / 60).toNat

/-- `showRadarFrame(i)` (part_001): `if (!frames[i] || !map) return;`
otherwise point the radar tile layer at the derived URL of the frame
(creating
the layer on first use and re-pointing it later have the same effect on the
modelled state; layer attachment toggling is not modelled). -/
def showRadarFrame (s : RadarState) (i : ℤ) : RadarState :=
  match jsIndex s.frames i, s.hasMap with
  | some f, true => { s with radarUrl := some (frameUrl f) }
  | _, _ => s

/-- `updateTimeLabel()` (part_001): `if (!frames[frameIndex]) return;`
otherwise format `frames[frameIndex].time`. -/
def updateTimeLabel (s : RadarState) : RadarState :=
  match jsIndex s.frames s.frameIndex with
  | some f => { s with timeLabel := fmtTimeHM f.time }
  | none => s

/-- The spec operation `show(index)`: `showRadarFrame(index)` followed by the
time-label update, exactly the pair every call site performs (each call site
assigns `frameIndex = index` immediately before this pair).  (`show` is a
Lean keyword, hence the name `showFrame`.) -/
def showFrame (s : RadarState) (i : ℤ) : RadarState :=
  updateTimeLabel (showRadarFrame s i)

/-- `loadRadarFrames()` (part_001).  `resp` is the settled outcome of
`fetch` + `res.json()`: `none` when either rejected (the `catch` path).
The function is total — no exception escapes it.  On success: concatenate
`past ++ nowcast`, bail out with a status message when empty (the frame list
was already replaced), else clamp the index to the end of the past segment,
publish slider bounds `[0, length-1]`, show the frame and update the label. -/
def loadRadarFrames (s0 : RadarState) (resp : Option RadarCatalog) : RadarState :=
  let s := { s0 with statusText := "Chargement radar…" }
  match resp with
  | none => { s with statusText := "Erreur radar" }
  | some d =>
    let past := d.past.getD []
    let fr := past ++ d.nowcast.getD []
    if fr.isEmpty then { s with frames := fr, statusText := "Radar indisponible" }
    else
      let fi : ℤ := max 0 ((past.length : ℤ) - 1)
      let s1 := { s with frames := fr, frameIndex := fi, sliderMin := 0,
                         sliderMax := (fr.length : ℤ) - 1, sliderValue := fi }
      { showFrame s1 fi with statusText := "Radar prêt" }

/-- `startRadarAuto()` (part_001): `if (anim || !frames.length) return;`
otherwise set the pause glyph and install a fresh interval timer, storing its
handle in `anim`. -/
def startRadarAuto (s : RadarState) : RadarState :=
  if s.anim.isSome ∨ s.frames.isEmpty then s
  else
    { s with playBtnText := "⏸", anim := some s.nextTimer,
             timers := s.timers ++ [s.nextTimer], nextTimer := s.nextTimer + 1 }

/-- `stopRadarAuto()` (part_001): `if (!anim) return;` otherwise
`clearInterval(anim)` and null the handle. -/
def stopRadarAuto (s : RadarState) : RadarState :=
  match s.anim with
  | none => s
  | some h => { s with timers := s.timers.erase h, anim := none }

/-- The body of the 700 ms interval installed by `startRadarAuto`: advance
`frameIndex` modulo `frames.length` (JavaScript `%` truncates toward zero;
with an empty frame list the index would be `NaN`, no frame would display and
no label would change — modelled as a no-op), sync the slider, show, label. -/
def radarTick (s : RadarState) : RadarState :=
  if s.frames.isEmpty then s
  else
    let fi := (s.frameIndex + 1).tmod (s.frames.length : ℤ)
    showFrame { s with frameIndex := fi, sliderValue := fi } fi

/-- The timeline slider `input` handler (part_001): `frameIndex`
becomes the slider value, then show + label. -/
def sliderInput (s : RadarState) (v : ℤ) : RadarState :=
  showFrame { s with frameIndex := v, sliderValue := v } v

/-- The play/pause button click handler (part_001). -/
def playBtnClick (s : RadarState) : RadarState :=
  if s.frames.isEmpty then s
  else if s.anim.isSome then
    { stopRadarAuto s with rainAutoChecked := false, playBtnText := "▶" }
  else
    { startRadarAuto { s with rainAutoChecked := true } with playBtnText := "⏸" }

/-- The `rainAutoToggle` change handler (part_001). -/
def rainAutoChange (s : RadarState) (checked : Bool) : RadarState :=
  let s1 := { s with rainAutoChecked := checked }
  if checked then startRadarAuto s1 else stopRadarAuto s1

/-- `loadRadarFrames()` of the `part_000` variant: keeps only the last 12
`past` frames (`slice(-12)`), never reads `nowcast`, and sets no slider
minimum.  Its success path then calls `showRadarFrame`, a helper this
variant does not define (the function exists only in the sibling variant),
so the call raises and the `catch` sets "Erreur radar" — after the frame
list, index and slider fields were already assigned. -/
def loadRadarFrames000 (s : RadarState) (resp : Option RadarCatalog) : RadarState :=
  match resp with
  | none => { s with statusText := "Erreur radar" }
  | some d =>
    let past := d.past.getD []
    let fr := past.drop (past.length - 12)
    if fr.isEmpty then { s with frames := fr, statusText := "Erreur radar" }
    else
      { s with frames := fr, frameIndex := (fr.length : ℤ) - 1,
               sliderMax := (fr.length : ℤ) - 1, sliderValue := (fr.length : ℤ) - 1,
               statusText := "Erreur radar" }

/-- `startAnim()` of the `part_000` variant:
`if (!frames.length || !radarToggle.checked) return;` — guarded by the frame
list and the radar toggle but NOT by an already-active handle; called while a
timer is live it installs a second interval and overwrites `anim`, orphaning
the first handle. -/
def startAnim (s : RadarState) : RadarState :=
  if s.frames.isEmpty ∨ s.radarToggleChecked = false then s
  else
    { s with playBtnText := "⏸", anim := some s.nextTimer,
             timers := s.timers ++ [s.nextTimer], nextTimer := s.nextTimer + 1 }

/-- `stopAnim()` of the `part_000` variant: clear the interval when one is
recorded, null the handle, reset the play glyph. -/
def stopAnim (s : RadarState) : RadarState :=
  { s with timers := (match s.anim with | some h => s.timers.erase h | none => s.timers),
           anim := none, playBtnText := "▶" }

/-- Startup state of the part_001 radar module right after `initMap` built
the map: empty frame list, index 0, no timer installed, fresh handle supply.
(The initial button glyph and toggle defaults come from the markup; their
values are immaterial to every property proved below.) -/
def radarInit : RadarState :=
  { hasMap := true, frames := [], frameIndex := 0, anim := none, timers := [],
    nextTimer := 0, sliderMin := 0, sliderMax := 0, sliderValue := 0,
    statusText := "", radarUrl := none, timeLabel := "", playBtnText := "▶",
    rainAutoChecked := true, radarToggleChecked := true }

/-- The events that drive the part_001 radar timeline. -/
inductive RadarStep : RadarState → RadarState → Prop
  | load (s : RadarState) (resp : Option RadarCatalog) :
      RadarStep s (loadRadarFrames s resp)
  | start (s : RadarState) : RadarStep s (startRadarAuto s)
  | stop (s : RadarState) : RadarStep s (stopRadarAuto s)
  | tick (s : RadarState) : RadarStep s (radarTick s)
  | slider (s : RadarState) (v : ℤ) : RadarStep s (sliderInput s v)
  | play (s : RadarState) : RadarStep s (playBtnClick s)
  | auto (s : RadarState) (b : Bool) : RadarStep s (rainAutoChange s b)

/-- States reachable from startup through radar events. -/
def RadarReachable (s : RadarState) : Prop :=
  Relation.ReflTransGen RadarStep radarInit s

/-- Timer bookkeeping invariant: the live interval timers are exactly what
the `anim` handle says. -/
def TimersInv (s : RadarState) : Prop :=
  s.timers = (match s.anim with | none => [] | some h => [h])

/-! ### Glyph layers -/

/-- Glyph-layer state: the ids of the layer objects currently attached to
the map, and the module refs `windArrowLayer` / `rainDirLayer`
(`none` is the JavaScript `null`). -/
structure GlyphState where
  mapLayers : List ℕ
  windArrowLayer : Option ℕ
  rainDirLayer : Option ℕ
deriving DecidableEq, Repr

/-- `clearWindArrows()`: when a layer ref exists, `map.removeLayer` it
(removal of an absent layer is a Leaflet no-op, hence `List.erase`) and null
the ref; otherwise do nothing. -/
def clearWindArrows (g : GlyphState) : GlyphState :=
  match g.windArrowLayer with
  | some l => { g with mapLayers := g.mapLayers.erase l, windArrowLayer := none }
  | none => g

/-- `clearRainDirection()`: same shape for the rain-direction layer. -/
def clearRainDirection (g : GlyphState) : GlyphState :=
  match g.rainDirLayer with
  | some l => { g with mapLayers := g.mapLayers.erase l, rainDirLayer := none }
  | none => g

/-! ### Helper lemmas: the display operations never touch the timer fields -/

theorem showRadarFrame_anim (s : RadarState) (i : ℤ) :
    (showRadarFrame s i).anim = s.anim := by
  unfold showRadarFrame
  cases jsIndex s.frames i <;> cases s.hasMap <;> rfl

theorem showRadarFrame_timers (s : RadarState) (i : ℤ) :
    (showRadarFrame s i).timers = s.timers := by
  unfold showRadarFrame
  cases jsIndex s.frames i <;> cases s.hasMap <;> rfl

theorem updateTimeLabel_anim (s : RadarState) :
    (updateTimeLabel s).anim = s.anim := by
  unfold updateTimeLabel
  cases jsIndex s.frames s.frameIndex <;> rfl

theorem updateTimeLabel_timers (s : RadarState) :
    (updateTimeLabel s).timers = s.timers := by
  unfold updateTimeLabel
  cases jsIndex s.frames s.frameIndex <;> rfl

theorem showFrame_anim (s : RadarState) (i : ℤ) :
    (showFrame s i).anim = s.anim := by
  unfold showFrame
  rw [updateTimeLabel_anim, showRadarFrame_anim]

theorem showFrame_timers (s : RadarState) (i : ℤ) :
    (showFrame s i).timers = s.timers := by
  unfold showFrame
  rw [updateTimeLabel_timers, showRadarFrame_timers]

theorem loadRadarFrames_anim (s : RadarState) (resp : Option RadarCatalog) :
    (loadRadarFrames s resp).anim = s.anim := by
  cases resp with
  | none => rfl
  | some d =>
    unfold loadRadarFrames
    dsimp only
    split
    · rfl
    · simp [showFrame_anim]

theorem loadRadarFrames_timers (s : RadarState) (resp : Option RadarCatalog) :
    (loadRadarFrames s resp).timers = s.timers := by
  cases resp with
  | none => rfl
  | some d =>
    unfold loadRadarFrames
    dsimp only
    split
    · rfl
    · simp [showFrame_timers]

theorem radarTick_anim (s : RadarState) : (radarTick s).anim = s.anim := by
  unfold radarTick
  split
  · rfl
  · simp [showFrame_anim]

theorem radarTick_timers (s : RadarState) : (radarTick s).timers = s.timers := by
  unfold radarTick
  split
  · rfl
  · simp [showFrame_timers]

theorem sliderInput_anim (s : RadarState) (v : ℤ) :
    (sliderInput s v).anim = s.anim := by
  unfold sliderInput
  simp [showFrame_anim]

theorem sliderInput_timers (s : RadarState) (v : ℤ) :
    (sliderInput s v).timers = s.timers := by
  unfold sliderInput
  simp [showFrame_timers]

/-! ### Timer invariant preservation -/

theorem startRadarAuto_inv {s : RadarState} (hs : TimersInv s) :
    TimersInv (startRadarAuto s) := by
  unfold TimersInv startRadarAuto at *
  split
  · exact hs
  · rename_i h
    have hnone : s.anim = none := by
      rcases hanim : s.anim with _ | a
      · rfl
      · exact absurd (Or.inl (by simp [hanim])) h
    rw [hnone] at hs
    simp only at hs
    simp [hs]

theorem stopRadarAuto_inv {s : RadarState} (hs : TimersInv s) :
    TimersInv (stopRadarAuto s) := by
  unfold TimersInv stopRadarAuto at *
  rcases hanim : s.anim with _ | a
  · rw [hanim] at hs; simpa [hanim] using hs
  · rw [hanim] at hs
    simp only at hs
    simp [hs]

theorem playBtnClick_inv {s : RadarState} (hs : TimersInv s) :
    TimersInv (playBtnClick s) := by
  unfold playBtnClick
  split
  · exact hs
  · split
    · have h2 := stopRadarAuto_inv hs
      unfold TimersInv at *
      simpa using h2
    · have h1 : TimersInv { s with rainAutoChecked := true } := hs
      have h2 := startRadarAuto_inv h1
      unfold TimersInv at *
      simpa using h2

theorem rainAutoChange_inv {s : RadarState} (b : Bool) (hs : TimersInv s) :
    TimersInv (rainAutoChange s b) := by
  unfold rainAutoChange
  dsimp only
  have h1 : TimersInv { s with rainAutoChecked := b } := hs
  split
  · exact startRadarAuto_inv h1
  · exact stopRadarAuto_inv h1

theorem timersInv_step {s t : RadarState} (hs : TimersInv s) (st : RadarStep s t) :
    TimersInv t := by
  cases st with
  | load resp =>
    unfold TimersInv at *
    rw [loadRadarFrames_anim, loadRadarFrames_timers]
    exact hs
  | start => exact startRadarAuto_inv hs
  | stop => exact stopRadarAuto_inv hs
  | tick =>
    unfold TimersInv at *
    rw [radarTick_anim, radarTick_timers]
    exact hs
  | slider v =>
    unfold TimersInv at *
    rw [sliderInput_anim, sliderInput_timers]
    exact hs
  | play => exact playBtnClick_inv hs
  | auto b => exact rainAutoChange_inv b hs

theorem timersInv_reachable {s : RadarState} (h : RadarReachable s) : TimersInv s := by
  induction h with
  | refl => rfl
  | tail _ hstep ih => exact timersInv_step ih hstep

/-! ### Further field-preservation lemmas for the display pair -/

theorem showRadarFrame_frames (s : RadarState) (i : ℤ) :
    (showRadarFrame s i).frames = s.frames := by
  unfold showRadarFrame
  cases jsIndex s.frames i <;> cases s.hasMap <;> rfl

theorem showRadarFrame_frameIndex (s : RadarState) (i : ℤ) :
    (showRadarFrame s i).frameIndex = s.frameIndex := by
  unfold showRadarFrame
  cases jsIndex s.frames i <;> cases s.hasMap <;> rfl

theorem updateTimeLabel_frames (s : RadarState) :
    (updateTimeLabel s).frames = s.frames := by
  unfold updateTimeLabel
  cases jsIndex s.frames s.frameIndex <;> rfl

theorem updateTimeLabel_frameIndex (s : RadarState) :
    (updateTimeLabel s).frameIndex = s.frameIndex := by
  unfold updateTimeLabel
  cases jsIndex s.frames s.frameIndex <;> rfl

theorem showFrame_frames (s : RadarState) (i : ℤ) :
    (showFrame s i).frames = s.frames := by
  unfold showFrame
  rw [updateTimeLabel_frames, showRadarFrame_frames]

theorem showFrame_frameIndex (s : RadarState) (i : ℤ) :
    (showFrame s i).frameIndex = s.frameIndex := by
  unfold showFrame
  rw [updateTimeLabel_frameIndex, showRadarFrame_frameIndex]

theorem showFrame_sliderMin (s : RadarState) (i : ℤ) :
    (showFrame s i).sliderMin = s.sliderMin := by
  unfold showFrame updateTimeLabel showRadarFrame
  cases jsIndex s.frames i <;> cases s.hasMap <;>
    cases h : jsIndex s.frames s.frameIndex <;> simp_all

theorem showFrame_sliderMax (s : RadarState) (i : ℤ) :
    (showFrame s i).sliderMax = s.sliderMax := by
  unfold showFrame updateTimeLabel showRadarFrame
  cases jsIndex s.frames i <;> cases s.hasMap <;>
    cases h : jsIndex s.frames s.frameIndex <;> simp_all

/-! ### Concrete demonstration data -/

/-- Ten past frames, ten minutes apart. -/
def demoPast : List RadarFrame :=
  (List.range 10).map fun k => ⟨600 * (k : ℤ), "/v2/radar/p" ++ toString k⟩

/-- Two nowcast frames continuing the same timeline. -/
def demoNowcast : List RadarFrame :=
  [⟨6000, "/v2/radar/n0"⟩, ⟨6600, "/v2/radar/n1"⟩]

/-- A catalog response with 10 past and 2 nowcast frames. -/
def demoCatalog : RadarCatalog := ⟨some demoPast, some demoNowcast⟩

/-- The startup state after a successful part_001 catalog load of
`demoCatalog`. -/
def demoLoaded : RadarState := loadRadarFrames radarInit (some demoCatalog)

/-- `demoLoaded` with the interval timer started. -/
def demoStarted : RadarState := startRadarAuto demoLoaded

/-- A state with frames loaded (and the radar toggle checked, as in
`radarInit`) but no active timer — the launchpad for `startAnim`. -/
def c2state : RadarState := { radarInit with frames := [⟨0, "/v2/radar/f0"⟩] }

/-- The frame at index 9 of `demoPast`. -/
def demoFrame9 : RadarFrame := ⟨5400, "/v2/radar/p9"⟩

/-! ### Claim theorems -/

/-- C1 (amended): in the part_001 variant, a successful catalog load with 10
past and 2 nowcast frames replaces the frame list by `past ++ nowcast`
(12 frames), initializes `frameIndex` to 9, and publishes slider bounds
`[0, 11]`. -/
theorem c1_load_concat_and_bounds (s : RadarState) (past nowcast : List RadarFrame)
    (h10 : past.length = 10) (h2 : nowcast.length = 2) :
    (loadRadarFrames s (some ⟨some past, some nowcast⟩)).frames = past ++ nowcast ∧
    (loadRadarFrames s (some ⟨some past, some nowcast⟩)).frames.length = 12 ∧
    (loadRadarFrames s (some ⟨some past, some nowcast⟩)).frameIndex = 9 ∧
    (loadRadarFrames s (some ⟨some past, some nowcast⟩)).sliderMin = 0 ∧
    (loadRadarFrames s (some ⟨some past, some nowcast⟩)).sliderMax = 11 := by
  have hlen : (past ++ nowcast).length = 12 := by simp [h10, h2]
  have hne : ¬((past ++ nowcast).isEmpty = true) := by
    intro hc
    rw [List.isEmpty_iff] at hc
    rw [hc] at hlen
    simp at hlen
  unfold loadRadarFrames
  dsimp only [Option.getD_some]
  rw [if_neg hne]
  refine ⟨?_, ?_, ?_, ?_, ?_⟩
  · simp [showFrame_frames]
  · simp [showFrame_frames, hlen]
  · norm_num [showFrame_frameIndex, h10]
  · simp [showFrame_sliderMin]
  · norm_num [showFrame_sliderMax, hlen]

/-- C1 witness: the amended statement applied to the concrete
10-past/2-nowcast catalog. -/
theorem c1_load_concat_and_bounds_witness :
    (loadRadarFrames radarInit (some ⟨some demoPast, some demoNowcast⟩)).frames
        = demoPast ++ demoNowcast ∧
    (loadRadarFrames radarInit (some ⟨some demoPast, some demoNowcast⟩)).frames.length = 12 ∧
    (loadRadarFrames radarInit (some ⟨some demoPast, some demoNowcast⟩)).frameIndex = 9 ∧
    (loadRadarFrames radarInit (some ⟨some demoPast, some demoNowcast⟩)).sliderMin = 0 ∧
    (loadRadarFrames radarInit (some ⟨some demoPast, some demoNowcast⟩)).sliderMax = 11 :=
  c1_load_concat_and_bounds radarInit demoPast demoNowcast (by rfl) (by rfl)

/-- C1 counterexample: the same catalog fed to `loadRadarFrames` of the
part_000 variant — which keeps only the last 12 `past` frames and ignores
`nowcast` — yields a 10-frame list (not 12) and slider maximum 9 (not 11). -/
theorem c1_counterexample :
    (loadRadarFrames000 radarInit (some demoCatalog)).frames = demoPast ∧
    (loadRadarFrames000 radarInit (some demoCatalog)).frames.length = 10 ∧
    (loadRadarFrames000 radarInit (some demoCatalog)).sliderMax = 9 :=
  ⟨rfl, rfl, rfl⟩

/-- C2 (amended): in the part_001 variant, `startRadarAuto` is a no-op while
a timer handle is recorded, calling it twice equals calling it once, and in
every reachable state at most one interval timer is live — the non-null
handle is exactly the live-timer bookkeeping. -/
theorem c2_guarded_single_timer :
    (∀ s : RadarState, s.anim.isSome → startRadarAuto s = s) ∧
    (∀ s : RadarState, startRadarAuto (startRadarAuto s) = startRadarAuto s) ∧
    (∀ s : RadarState, RadarReachable s →
        s.timers.length ≤ 1 ∧ (s.anim.isSome ↔ s.timers ≠ [])) := by
  have hnoop : ∀ s : RadarState, s.anim.isSome → startRadarAuto s = s := by
    intro s h
    unfold startRadarAuto
    rw [if_pos (Or.inl h)]
  refine ⟨hnoop, ?_, ?_⟩
  · intro s
    by_cases h : (s.anim.isSome ∨ s.frames.isEmpty : Prop)
    · have hid : startRadarAuto s = s := by unfold startRadarAuto; rw [if_pos h]
      rw [hid]
      exact hid
    · have h1 : (startRadarAuto s).anim.isSome = true := by
        unfold startRadarAuto
        rw [if_neg h]
        rfl
      exact hnoop _ h1
  · intro s hr
    have hinv := timersInv_reachable hr
    unfold TimersInv at hinv
    rcases h : s.anim with _ | a
    · have ht : s.timers = [] := by rw [h] at hinv; exact hinv
      simp [h, ht]
    · have ht : s.timers = [a] := by rw [h] at hinv; exact hinv
      simp [h, ht]

/-- C2 witness: the amended statement applied to the started demo state and
to the two-step reachable trace `init —load→ demoLoaded —start→ demoStarted`. -/
theorem c2_guarded_single_timer_witness :
    startRadarAuto demoStarted = demoStarted ∧
    startRadarAuto (startRadarAuto demoLoaded) = startRadarAuto demoLoaded ∧
    (demoStarted.timers.length ≤ 1 ∧ (demoStarted.anim.isSome ↔ demoStarted.timers ≠ [])) := by
  refine ⟨?_, ?_, ?_⟩
  · exact c2_guarded_single_timer.1 demoStarted (by decide)
  · exact c2_guarded_single_timer.2.1 demoLoaded
  · refine c2_guarded_single_timer.2.2 demoStarted ?_
    exact Relation.ReflTransGen.tail
      (Relation.ReflTransGen.tail Relation.ReflTransGen.refl
        (RadarStep.load radarInit (some demoCatalog)))
      (RadarStep.start demoLoaded)

/-- C2 counterexample: `startAnim` of the part_000 variant carries no
active-handle guard — from a loaded state, calling it twice installs two
interval timers and does not equal calling it once. -/
theorem c2_counterexample :
    (startAnim c2state).anim.isSome = true ∧
    (startAnim (startAnim c2state)).timers.length = 2 ∧
    startAnim (startAnim c2state) ≠ startAnim c2state := by
  refine ⟨rfl, rfl, ?_⟩
  intro h
  have h2 : (startAnim (startAnim c2state)).timers.length = 2 := rfl
  have h1 : (startAnim c2state).timers.length = 1 := rfl
  rw [h, h1] at h2
  exact absurd h2 (by decide)

/-- C3: `computeRainEvent15` on the series `[0, 0, 0.05, 0.3, 0.4, 0.0, 0.2]`
(threshold 0.1) returns `startMin = 45`, `durationMin = 30`, and
`totalMm = 0.3 + 0.4 = 0.7`; the `0.2` sample after the sub-threshold gap is
counted neither in the duration nor in the total. -/
theorem c3_computeRainEvent15_scenario :
    computeRainEvent15 [0, 0, 5/100, 3/10, 4/10, 0, 2/10]
      = ⟨some 45, 30, 7/10⟩ := by
  norm_num [computeRainEvent15, firstAboveIdx, rainRun, TH]

/-- C4: when the catalog fetch or the parsing of its response fails (the
`catch` path, `resp = none`), `loadRadarFrames` of both variants leaves the
previous frame list, `frameIndex` (and for part_001 the tile layer URL)
unchanged and set the status text to the error string "Erreur radar"; the
embedding is a total function — the exception never escapes `load()`. -/
theorem c4_load_error_soft (s : RadarState) :
    (loadRadarFrames s none).frames = s.frames ∧
    (loadRadarFrames s none).frameIndex = s.frameIndex ∧
    (loadRadarFrames s none).radarUrl = s.radarUrl ∧
    (loadRadarFrames s none).statusText = "Erreur radar" ∧
    (loadRadarFrames000 s none).frames = s.frames ∧
    (loadRadarFrames000 s none).frameIndex = s.frameIndex ∧
    (loadRadarFrames000 s none).statusText = "Erreur radar" :=
  ⟨rfl, rfl, rfl, rfl, rfl, rfl, rfl⟩

/-- C5: a successful point sample with `sourceBearingDeg = 90` and
`speedKmh = 10` yields flow components `u = 10·sin(270°·π/180) = -10` and
`v = 10·cos(270°·π/180) = 0`: the source bearing rotated 180°, decomposed by
sine/cosine, scaled by the speed. -/
theorem c5_fetchPointWind_east :
    fetchPointWind (some (10, 90)) = some ⟨10, 90, -10, 0⟩ := by
  have htr : realTrunc (((90:ℝ) + 180) / 360) = 0 := by
    have hdiv : ((90:ℝ) + 180) / 360 = 3/4 := by norm_num
    rw [hdiv]
    unfold realTrunc
    rw [if_pos (by norm_num)]
    rw [Int.floor_eq_zero_iff]
    constructor <;> norm_num
  have hrem : jsRem ((90:ℝ) + 180) 360 = 270 := by
    unfold jsRem
    rw [htr]
    norm_num
  have hsin : Real.sin ((270:ℝ) * Real.pi / 180) = -1 := by
    have hang : (270:ℝ) * Real.pi / 180 = Real.pi + Real.pi / 2 := by ring
    rw [hang, Real.sin_add, Real.sin_pi, Real.cos_pi, Real.sin_pi_div_two,
      Real.cos_pi_div_two]
    ring
  have hcos : Real.cos ((270:ℝ) * Real.pi / 180) = 0 := by
    have hang : (270:ℝ) * Real.pi / 180 = Real.pi + Real.pi / 2 := by ring
    rw [hang, Real.cos_add, Real.sin_pi, Real.cos_pi, Real.sin_pi_div_two,
      Real.cos_pi_div_two]
    ring
  unfold fetchPointWind
  dsimp only
  rw [hrem, hsin, hcos]
  norm_num

/-- C6: for any state whose cursor sits at `index` (as at every call site of
the pair), `show(index)` with `0 ≤ index < frames.length` and an initialized
map sets the tile URL to exactly the derived URL of that frame and the time
label to the formatted timestamp of that frame, leaving `frames` and `frameIndex`
untouched; for `index` outside the range, the state is unchanged. -/
theorem c6_showFrame_contract :
    (∀ (s : RadarState) (i : ℤ) (f : RadarFrame),
        s.hasMap = true → s.frameIndex = i → 0 ≤ i →
        s.frames[i.toNat]? = some f →
        (showFrame s i).radarUrl = some (frameUrl f) ∧
        (showFrame s i).timeLabel = fmtTimeHM f.time ∧
        (showFrame s i).frames = s.frames ∧
        (showFrame s i).frameIndex = s.frameIndex) ∧
    (∀ (s : RadarState) (i : ℤ), s.frameIndex = i →
        (i < 0 ∨ (s.frames.length : ℤ) ≤ i) → showFrame s i = s) := by
  constructor
  · intro s i f hm hfi h0 hget
    have hji : jsIndex s.frames i = some f := by
      unfold jsIndex
      rw [if_pos h0]
      exact hget
    have hs1 : showRadarFrame s i = { s with radarUrl := some (frameUrl f) } := by
      unfold showRadarFrame
      rw [hji, hm]
    unfold showFrame
    rw [hs1]
    have hlab : jsIndex ({ s with radarUrl := some (frameUrl f) } : RadarState).frames
        ({ s with radarUrl := some (frameUrl f) } : RadarState).frameIndex = some f := by
      dsimp only
      rw [hfi]
      exact hji
    unfold updateTimeLabel
    rw [hlab]
    exact ⟨rfl, rfl, rfl, rfl⟩
  · intro s i hfi hout
    have hji : jsIndex s.frames i = none := by
      unfold jsIndex
      rcases hout with hlt | hge
      · rw [if_neg (by omega)]
      · rw [if_pos (by omega)]
        exact List.getElem?_eq_none (by omega)
    have hlab : jsIndex s.frames s.frameIndex = none := by rw [hfi]; exact hji
    unfold showFrame showRadarFrame
    rw [hji]
    cases hb : s.hasMap <;>
    · show updateTimeLabel s = s
      unfold updateTimeLabel
      rw [hlab]

/-- C6 witness: the contract applied at index 9 of the loaded demo state and
at out-of-range index 5 of the empty startup state. -/
theorem c6_showFrame_contract_witness :
    ((showFrame demoLoaded 9).radarUrl = some (frameUrl demoFrame9) ∧
     (showFrame demoLoaded 9).timeLabel = fmtTimeHM demoFrame9.time ∧
     (showFrame demoLoaded 9).frames = demoLoaded.frames ∧
     (showFrame demoLoaded 9).frameIndex = demoLoaded.frameIndex) ∧
    showFrame { radarInit with frameIndex := 5 } 5 = { radarInit with frameIndex := 5 } := by
  constructor
  · exact c6_showFrame_contract.1 demoLoaded 9 demoFrame9 rfl (by decide) (by norm_num) (by rfl)
  · exact c6_showFrame_contract.2 { radarInit with frameIndex := 5 } 5 rfl (Or.inr (by decide))

/-- C7: `startWindParticles` fills the pool with exactly 650 particles, and
any number of `loopParticles` redraw ticks — under arbitrary per-tick window
sizes, center-wind values and random draws — leaves the pool size at 650:
out-of-bounds or over-age particles are respawned in place, never added or
removed. -/
theorem c7_particle_pool_size :
    ∀ (env : WindEnv) (rnd : ℕ → ℚ × ℚ × ℚ) (envs : ℕ → WindEnv)
      (rnds : ℕ → ℕ → ℚ × ℚ × ℚ) (s : WindState) (n : ℕ),
      (startWindParticles env rnd s).windParticles.length = 650 ∧
      (runTicks envs rnds n (startWindParticles env rnd s)).windParticles.length = 650 := by
  have hstep : ∀ (env : WindEnv) (rnd : ℕ → ℚ × ℚ × ℚ) (s : WindState),
      (loopParticlesStep env rnd s).windParticles.length = s.windParticles.length := by
    intro env rnd s
    unfold loopParticlesStep
    split
    · simp
    · rfl
  have hrun : ∀ (envs : ℕ → WindEnv) (rnds : ℕ → ℕ → ℚ × ℚ × ℚ) (n : ℕ) (s : WindState),
      (runTicks envs rnds n s).windParticles.length = s.windParticles.length := by
    intro envs rnds n
    induction n with
    | zero => intro s; rfl
    | succ n ih =>
      intro s
      exact (ih _).trans (hstep _ _ _)
  intro env rnd envs rnds s n
  have hinit : (startWindParticles env rnd s).windParticles.length = 650 := by
    simp [startWindParticles, initParticles]
  exact ⟨hinit, (hrun envs rnds n _).trans hinit⟩

/-- C8 (amended): on a window resize while the particle field is running,
the resize listener of the part_000 variant reinitializes the whole pool
after recomputing the canvas dimensions from the window; the resize listener
of the part_001 variant only recomputes the canvas backing store and never
touches the pool. -/
theorem c8_resize_behavior :
    (∀ (env : WindEnv) (rnd : ℕ → ℚ × ℚ × ℚ) (s : WindState),
        s.windRunning = true →
          (resizeHandler000 env rnd s).windParticles = initParticles env rnd ∧
          (resizeHandler000 env rnd s).canvasW = env.innerWidth ∧
          (resizeHandler000 env rnd s).canvasH = env.innerHeight) ∧
    (∀ (env : WindEnv) (s : WindState),
        (resizeHandler001 env s).windParticles = s.windParticles) := by
  constructor
  · intro env rnd s h
    refine ⟨?_, ?_, ?_⟩ <;> simp [resizeHandler000, h]
  · intro env s
    rfl

/-- C8 witness: the amended statement applied to the concrete running
state and environment. -/
theorem c8_resize_behavior_witness :
    (resizeHandler000 cexWindEnv (fun _ => (0, 0, 0)) cexRunningState).windParticles
        = initParticles cexWindEnv (fun _ => (0, 0, 0)) ∧
    (resizeHandler000 cexWindEnv (fun _ => (0, 0, 0)) cexRunningState).canvasW
        = cexWindEnv.innerWidth ∧
    (resizeHandler000 cexWindEnv (fun _ => (0, 0, 0)) cexRunningState).canvasH
        = cexWindEnv.innerHeight :=
  c8_resize_behavior.1 cexWindEnv (fun _ => (0, 0, 0)) cexRunningState rfl

/-- C8 counterexample: with the running flag set, the resize listener of
the part_001 variant leaves the pool exactly as it was — for no sequence of
random draws is the post-state pool a reinitialized one. -/
theorem c8_counterexample :
    cexRunningState.windRunning = true ∧
    ¬ fullyReinitialized cexWindEnv (resizeHandler001 cexWindEnv cexRunningState) := by
  refine ⟨rfl, ?_⟩
  rintro ⟨rnd, h⟩
  have hl := congrArg List.length h
  simp [resizeHandler001, cexRunningState, initParticles] at hl

/-- C9: for both glyph layer kinds, `clear` is idempotent: the first call
removes the layer from the map and nulls the module ref, and an immediately
repeated call is a no-op (total function, no error) changing nothing. -/
theorem c9_clear_idempotent :
    ∀ g : GlyphState,
      clearWindArrows (clearWindArrows g) = clearWindArrows g ∧
      (clearWindArrows g).windArrowLayer = none ∧
      clearRainDirection (clearRainDirection g) = clearRainDirection g ∧
      (clearRainDirection g).rainDirLayer = none := by
  have hwa : ∀ g : GlyphState, (clearWindArrows g).windArrowLayer = none := by
    intro g
    unfold clearWindArrows
    cases h : g.windArrowLayer
    · exact h
    · rfl
  have hrd : ∀ g : GlyphState, (clearRainDirection g).rainDirLayer = none := by
    intro g
    unfold clearRainDirection
    cases h : g.rainDirLayer
    · exact h
    · rfl
  have hwnone : ∀ g : GlyphState, g.windArrowLayer = none → clearWindArrows g = g := by
    intro g h
    unfold clearWindArrows
    rw [h]
  have hrnone : ∀ g : GlyphState, g.rainDirLayer = none → clearRainDirection g = g := by
    intro g h
    unfold clearRainDirection
    rw [h]
  intro g
  exact ⟨hwnone _ (hwa g), hwa g, hrnone _ (hrd g), hrd g⟩

/-- C10: for every input, `escapeHtml` output contains none of the four
HTML metacharacters, and every `&` of the output begins one of the five entity texts
`&amp;`, `&lt;`, `&gt;`, `&quot;`, `&#039;` (the `&` pass runs first) —
hence the fields `pushToast` interpolates through `escapeHtml` cannot open
an HTML tag. -/
theorem c10_escapeHtml_safe :
    ∀ s : List Char,
      (∀ c ∈ escapeHtml s, c ≠ '<' ∧ c ≠ '>' ∧ c ≠ quoteChar ∧ c ≠ aposChar) ∧
      (∀ pre suf, escapeHtml s = pre ++ '&' :: suf →
        ∃ e ∈ entities, e.isPrefixOf ('&' :: suf) = true) := by
  intro s
  obtain ⟨h1, h2⟩ := escapeHtml_bool s
  constructor
  · intro c hc
    have hall := List.all_eq_true.mp h1 c hc
    exact of_decide_eq_true hall
  · exact ampOkB_position _ h2

/-- C10 witness: the safety statement applied to the input `"<"`, whose
escape is `&lt;` — its `&` indeed begins an entity. -/
theorem c10_escapeHtml_safe_witness :
    ('&' ≠ '<' ∧ '&' ≠ '>' ∧ '&' ≠ quoteChar ∧ '&' ≠ aposChar) ∧
    (∃ e ∈ entities, e.isPrefixOf ('&' :: 'l' :: 't' :: ';' :: ([] : List Char)) = true) :=
  ⟨(c10_escapeHtml_safe ['<']).1 '&' (by decide),
   (c10_escapeHtml_safe ['<']).2 [] ['l', 't', ';'] (by decide)⟩

end RainToday
